import Mathlib

/-!
# TouchScreen_Button: refresh handshake and buffer copy

A shallow embedding of `Src/main.c` (STM32F469 Discovery display demo).

* `CopyBuffer` programs the DMA2D block-copy accelerator; the accelerator itself is a
  vendor collaborator and is modelled as a strided rectangular copy.
* `main` together with `HAL_DSI_EndOfRefreshCallback` is modelled as a transition system:
  one step of `main` per source statement, and an interrupt step that delivers the
  end-of-refresh callback for a refresh that is in flight.
-/

namespace TouchScreenButton

/-! ## Machine integers and display constants -/

/-- Conversion of a C `int` value to `uint32_t`. -/
def u32 (n : Int) : Nat := (n % 4294967296).toNat

/-- Conversion of an argument to `uint16_t`. -/
def u16 (n : Nat) : Nat := n % 65536

/-- Vertical active area (`#define VACT 480`). -/
def VACT : Nat := 480

/-- Horizontal active area (`#define HACT 800`). -/
def HACT : Nat := 800

/-- Modelled from the spec: the board-support header that defines `LCD_OK` is not part of
the sources; it is the success code returned by `LCD_Init`, value `0x00`. -/
def LCD_OK : Nat := 0

/-! ## Collaborators: status codes, calls and the observable trace -/

/-- Status reported by a HAL call (`HAL_StatusTypeDef` of the vendor HAL). -/
inductive HAL_StatusTypeDef where
  | HAL_OK
  | HAL_ERROR
  | HAL_BUSY
  | HAL_TIMEOUT
  deriving DecidableEq, Repr

/-- The external functions called by `main.c` whose result or effect is not computed by
this file (vendor HAL, board support package, panel driver). -/
inductive Call where
  | HAL_Init
  | HAL_RCC_OscConfig
  | HAL_PWREx_EnableOverDrive
  | HAL_RCC_ClockConfig
  | BSP_SDRAM_Init
  | BSP_LCD_Reset
  | BSP_LCD_MspInit
  | HAL_RCCEx_PeriphCLKConfig
  | HAL_DSI_DeInit
  | HAL_DSI_Init
  | HAL_DSI_ConfigAdaptedCommandMode
  | HAL_DSI_ConfigCommand
  | HAL_DSI_ConfigPhyTimer
  | HAL_LTDC_DeInit
  | HAL_LTDC_Init
  | HAL_DSI_Start
  | OTM8009A_Init
  | HAL_DSI_ConfigFlowControl
  | HAL_DSI_Refresh
  | BSP_LED_On_LED3
  | BSP_LCD_LayerDefaultInit
  | BSP_LCD_SelectLayer
  | BSP_LCD_SetFont
  | BSP_LCD_SetTextColor
  | BSP_LCD_SetBackColor
  | HAL_DMA2D_Init
  | HAL_DMA2D_ConfigLayer
  | HAL_DMA2D_PollForTransfer
  deriving DecidableEq, Repr

/-- One entry of the observable trace of the program. -/
inductive Event where
  /-- A call of an external function. -/
  | call (c : Call)
  /-- The call `HAL_DMA2D_Start(&hdma2d, src, dst, width, height)`. -/
  | HAL_DMA2D_Start (src dst width height : Nat)
  /-- The call `BSP_LCD_FillRect(x, y, width, height)`. -/
  | BSP_LCD_FillRect (x y width height : Nat)
  /-- The call `BSP_LCD_DisplayStringAt(x, y, text, CENTER_MODE)`. -/
  | BSP_LCD_DisplayStringAt (x y : Nat)
  /-- The call `BSP_LCD_DisplayStringAtLine(line, text)`. -/
  | BSP_LCD_DisplayStringAtLine (line : Nat)
  /-- A store `pending_buffer = v`. -/
  | storePending (v : Int)
  deriving DecidableEq, Repr

/-- Memory: the 32-bit word stored at a (word-aligned) byte address. -/
abbrev Mem := Nat → Nat

/-- Store of one word. -/
def Mem.write (m : Mem) (a v : Nat) : Mem := fun b => if b = a then v else m b

/-- What the hardware and the vendor libraries answer during one step of the program. -/
structure HalEnv where
  /-- Status reported by each status-returning call. -/
  status : Call → HAL_StatusTypeDef
  /-- Status reported by `HAL_DMA2D_Start`. -/
  startStatus : HAL_StatusTypeDef
  /-- Number of pixels the accelerator has moved when `HAL_DMA2D_PollForTransfer` returns
  (the poll gives up after its timeout or on a transfer error). -/
  pollPixels : Nat
  /-- Pixel transformation applied by the accelerator in the modes that convert or blend. -/
  convert : Nat → Nat
  /-- Effect on memory of a drawing primitive of the board support package. -/
  draw : Event → Mem → Mem
  /-- Address of the layer-0 framebuffer (`LCD_FB_START_ADDRESS`, defined in a header that
  is not part of the sources). -/
  LCD_FB_START_ADDRESS : Nat
  /-- Address of the array `image_320x240_argb8888` (defined in a header that is not part
  of the sources). -/
  image_320x240_argb8888 : Nat

/-! ## The DMA2D accelerator -/

/-- Transfer mode of the accelerator. -/
inductive DMA2D_Mode where
  | DMA2D_M2M
  | DMA2D_M2M_PFC
  | DMA2D_M2M_BLEND
  | DMA2D_R2M
  deriving DecidableEq, Repr

/-- Pixel formats of the accelerator. -/
inductive DMA2D_Color where
  | ARGB8888
  | RGB888
  | RGB565
  | ARGB1555
  | ARGB4444
  deriving DecidableEq, Repr

/-- Alpha handling of the input layer. -/
inductive DMA2D_Alpha where
  | DMA2D_NO_MODIF_ALPHA
  | DMA2D_REPLACE_ALPHA
  | DMA2D_COMBINE_ALPHA
  deriving DecidableEq, Repr

/-- The fields of `hdma2d` that `CopyBuffer` sets. -/
structure DMA2D_HandleTypeDef where
  Mode : DMA2D_Mode
  ColorMode : DMA2D_Color
  OutputOffset : Nat
  AlphaMode : DMA2D_Alpha
  InputAlpha : Nat
  InputColorMode : DMA2D_Color
  InputOffset : Nat
  deriving Repr

/-- Bytes occupied by one pixel of a format. -/
def bytesPerPixel : DMA2D_Color → Nat
  | .ARGB8888 => 4
  | .RGB888 => 3
  | .RGB565 => 2
  | .ARGB1555 => 2
  | .ARGB4444 => 2

/-- Address of pixel number `k` (row-major) of a region whose lines are `width` pixels long
and are followed by `offset` skipped pixels, in a 32-bit address space. -/
def pixelAddress (base bpp width offset k : Nat) : Nat :=
  (base + bpp * ((k / width) * (width + offset) + k % width)) % 4294967296

/-- Value written for a pixel read as `v`: unchanged in memory-to-memory mode. -/
def pixelOut (env : HalEnv) (h : DMA2D_HandleTypeDef) (v : Nat) : Nat :=
  if h.Mode = DMA2D_Mode.DMA2D_M2M then v else env.convert v

/-- Modelled from the spec: the block-copy accelerator behind `HAL_DMA2D_Start` is a
vendor collaborator that is not part of the sources. Started on `(src, dst, width, height)`
it moves the pixels of the source region to the destination region one after the other in
row-major order, skipping `InputOffset` resp. `OutputOffset` pixels after each line;
`DMA2D_transfer ... n` is the memory after the first `n` pixels have been moved. -/
def DMA2D_transfer (env : HalEnv) (h : DMA2D_HandleTypeDef) (src dst width : Nat)
    (mem : Mem) : Nat → Mem
  | 0 => mem
  | k + 1 =>
    let m := DMA2D_transfer env h src dst width mem k
    Mem.write m (pixelAddress dst (bytesPerPixel h.ColorMode) width h.OutputOffset k)
      (pixelOut env h
        (m (pixelAddress src (bytesPerPixel h.InputColorMode) width h.InputOffset k)))

/-- Memory after `HAL_DMA2D_Start` followed by `HAL_DMA2D_PollForTransfer`: the pixels
moved are those completed when the poll returns, at most `width * height`. -/
def DMA2D_run (env : HalEnv) (h : DMA2D_HandleTypeDef) (src dst width height : Nat)
    (mem : Mem) : Mem :=
  DMA2D_transfer env h src dst width mem (min env.pollPixels (width * height))

/-! ## `CopyBuffer` -/

/-- The handle configuration written by `CopyBuffer` (lines 371-380). -/
def CopyBuffer_config (xsize : Nat) : DMA2D_HandleTypeDef :=
  { Mode := DMA2D_Mode.DMA2D_M2M
    ColorMode := DMA2D_Color.ARGB8888
    OutputOffset := u32 (800 - (xsize : Int))
    AlphaMode := DMA2D_Alpha.DMA2D_NO_MODIF_ALPHA
    InputAlpha := 0xFF
    InputColorMode := DMA2D_Color.ARGB8888
    InputOffset := 0 }

/-- The value of `destination` computed at line 368. -/
def CopyBuffer_destination (pDst x y : Nat) : Nat :=
  (pDst % 4294967296 + (y * 800 + x) * 4) % 4294967296

/-- `CopyBuffer(pSrc, pDst, x, y, xsize, ysize)`: the memory after the call and the
external calls it made. -/
def CopyBuffer (env : HalEnv) (mem : Mem) (pSrc pDst x y xsize ysize : Nat) :
    Mem × List Event :=
  let x := u16 x
  let y := u16 y
  let xsize := u16 xsize
  let ysize := u16 ysize
  let destination := CopyBuffer_destination pDst x y
  let source := pSrc % 4294967296
  let hdma2d := CopyBuffer_config xsize
  if env.status Call.HAL_DMA2D_Init = HAL_StatusTypeDef.HAL_OK then
    if env.status Call.HAL_DMA2D_ConfigLayer = HAL_StatusTypeDef.HAL_OK then
      if env.startStatus = HAL_StatusTypeDef.HAL_OK then
        (DMA2D_run env hdma2d source destination xsize ysize mem,
          [Event.call Call.HAL_DMA2D_Init, Event.call Call.HAL_DMA2D_ConfigLayer,
           Event.HAL_DMA2D_Start source destination xsize ysize,
           Event.call Call.HAL_DMA2D_PollForTransfer])
      else
        (mem,
          [Event.call Call.HAL_DMA2D_Init, Event.call Call.HAL_DMA2D_ConfigLayer,
           Event.HAL_DMA2D_Start source destination xsize ysize])
    else
      (mem, [Event.call Call.HAL_DMA2D_Init, Event.call Call.HAL_DMA2D_ConfigLayer])
  else
    (mem, [Event.call Call.HAL_DMA2D_Init])

/-! ## Program state and the refresh handshake -/

/-- Program points of the main control flow, named by source line. `L60` is the endless
loop of `OnError_Handler`; `clockHang` stands for the endless loops of `SystemClock_Config`
(lines 165, 171 and 183). -/
inductive PC where
  | L91 | L92 | L93 | L94 | L95 | L97 | L98 | L99 | L102 | L103 | L104 | L105 | L106 | L107
  | L111 | L113 | L114
  | clockHang
  | L60
  deriving DecidableEq, Repr

/-- State of the program and of the display link. -/
structure Sys where
  /-- Next statement of the main control flow. -/
  pc : PC
  /-- The global `static int32_t pending_buffer`. -/
  pending_buffer : Int
  /-- The local `lcd_status` of `main`. -/
  lcd_status : Nat
  /-- Refresh commands the display link has accepted and not yet reported complete. -/
  outstanding : Nat
  /-- Memory contents. -/
  mem : Mem
  /-- External calls and flag stores made so far, oldest first. -/
  trace : List Event

/-- State at reset: `pending_buffer = -1` (line 41), `lcd_status = LCD_OK` (line 89). -/
def powerOn (mem : Mem) : Sys :=
  { pc := PC.L91, pending_buffer := -1, lcd_status := LCD_OK, outstanding := 0,
    mem := mem, trace := [] }

/-- A call of an external function that is only recorded. -/
def callExt (c : Call) (s : Sys) : Sys :=
  { s with trace := s.trace ++ [Event.call c] }

/-- A call of a drawing primitive: recorded, with its effect on memory. -/
def drawExt (env : HalEnv) (e : Event) (s : Sys) : Sys :=
  { s with mem := env.draw e s.mem, trace := s.trace ++ [e] }

/-- The store `pending_buffer = v`. -/
def storePending (v : Int) (s : Sys) : Sys :=
  { s with pending_buffer := v, trace := s.trace ++ [Event.storePending v] }

/-- The call `HAL_DSI_Refresh(&hdsi_eval)`: one more refresh command is in flight. -/
def HAL_DSI_Refresh (s : Sys) : Sys :=
  { s with outstanding := s.outstanding + 1,
           trace := s.trace ++ [Event.call Call.HAL_DSI_Refresh] }

/-- The pair `pending_buffer = 0; HAL_DSI_Refresh(&hdsi_eval);` (lines 103-104 and
113-114). -/
def RequestRefresh (s : Sys) : Sys :=
  HAL_DSI_Refresh (storePending 0 s)

/-- The callback `HAL_DSI_EndOfRefreshCallback` (lines 123-129). -/
def HAL_DSI_EndOfRefreshCallback (s : Sys) : Sys :=
  if s.pending_buffer ≥ 0 then storePending (-1) s else s

/-- The body of the polling loop (lines 111-115). -/
def PollAndResubmit (s : Sys) : Sys :=
  if s.pending_buffer < 0 then RequestRefresh s else s

/-- Number of `HAL_DSI_Refresh` calls made so far. -/
def refreshCount (s : Sys) : Nat :=
  s.trace.count (Event.call Call.HAL_DSI_Refresh)

/-! ## The functions of `main.c` -/

/-- The function `OnError_Handler(condition)` (lines 55-62); `ret` is the statement after
the call. -/
def OnError_Handler (condition : Nat) (ret : PC) (s : Sys) : Sys :=
  if condition ≠ 0 then
    { callExt Call.BSP_LED_On_LED3 s with pc := PC.L60 }
  else
    { s with pc := ret }

/-- The function `DrawButton` (lines 67-81). -/
def DrawButton (env : HalEnv) (s : Sys) : Sys :=
  let x_pos := 600
  let y_pos := 240
  let width := 100
  let height := 50
  let s := callExt Call.BSP_LCD_SetTextColor s
  let s := drawExt env (Event.BSP_LCD_FillRect x_pos y_pos width height) s
  let s := callExt Call.BSP_LCD_SetTextColor s
  let s := callExt Call.BSP_LCD_SetBackColor s
  let s := callExt Call.BSP_LCD_SetFont s
  drawExt env
    (Event.BSP_LCD_DisplayStringAt (u16 (1000 + width / 2)) (u16 (y_pos + height / 2))) s

/-- The function `SystemClock_Config` (lines 139-185); `ret` is the statement after the
call. A failed clock configuration call ends in an endless loop. -/
def SystemClock_Config (env : HalEnv) (ret : PC) (s : Sys) : Sys :=
  let s := callExt Call.HAL_RCC_OscConfig s
  if env.status Call.HAL_RCC_OscConfig ≠ HAL_StatusTypeDef.HAL_OK then
    { s with pc := PC.clockHang }
  else
    let s := callExt Call.HAL_PWREx_EnableOverDrive s
    if env.status Call.HAL_PWREx_EnableOverDrive ≠ HAL_StatusTypeDef.HAL_OK then
      { s with pc := PC.clockHang }
    else
      let s := callExt Call.HAL_RCC_ClockConfig s
      if env.status Call.HAL_RCC_ClockConfig ≠ HAL_StatusTypeDef.HAL_OK then
        { s with pc := PC.clockHang }
      else
        { s with pc := ret }

/-- The function `LTDC_Init` (lines 300-329). -/
def LTDC_Init (s : Sys) : Sys :=
  let s := callExt Call.HAL_LTDC_DeInit s
  callExt Call.HAL_LTDC_Init s

/-- The function `LCD_Init` (lines 196-291): the state after the call and the returned
status. The statuses reported by the calls it makes are discarded. -/
def LCD_Init (s : Sys) : Nat × Sys :=
  let s := callExt Call.BSP_LCD_Reset s
  let s := callExt Call.BSP_LCD_MspInit s
  let s := callExt Call.HAL_RCCEx_PeriphCLKConfig s
  let s := callExt Call.HAL_DSI_DeInit s
  let s := callExt Call.HAL_DSI_Init s
  let s := callExt Call.HAL_DSI_ConfigAdaptedCommandMode s
  let s := callExt Call.HAL_DSI_ConfigCommand s
  let s := callExt Call.HAL_DSI_ConfigPhyTimer s
  let s := LTDC_Init s
  let s := callExt Call.HAL_DSI_Start s
  let s := callExt Call.OTM8009A_Init s
  let s := callExt Call.HAL_DSI_ConfigCommand s
  let s := callExt Call.HAL_DSI_ConfigFlowControl s
  let s := HAL_DSI_Refresh s
  (LCD_OK, s)

/-- The function `LCD_BriefDisplay` (lines 336-349). -/
def LCD_BriefDisplay (env : HalEnv) (s : Sys) : Sys :=
  let s := callExt Call.BSP_LCD_SetFont s
  let s := callExt Call.BSP_LCD_SetTextColor s
  let s := drawExt env (Event.BSP_LCD_FillRect 0 0 800 112) s
  let s := callExt Call.BSP_LCD_SetTextColor s
  let s := drawExt env (Event.BSP_LCD_FillRect 0 112 800 368) s
  let s := callExt Call.BSP_LCD_SetBackColor s
  let s := drawExt env (Event.BSP_LCD_DisplayStringAtLine 1) s
  let s := callExt Call.BSP_LCD_SetFont s
  let s := drawExt env (Event.BSP_LCD_DisplayStringAtLine 4) s
  drawExt env (Event.BSP_LCD_DisplayStringAtLine 5) s

/-- The call `CopyBuffer(image_320x240_argb8888, LAYER0_ADDRESS, 50, 160, 320, 240)` of
lines 102 and 106. -/
def mainCopyBuffer (env : HalEnv) (s : Sys) : Sys :=
  let r := CopyBuffer env s.mem env.image_320x240_argb8888 env.LCD_FB_START_ADDRESS
    50 160 320 240
  { s with mem := r.1, trace := s.trace ++ r.2 }

/-- One statement of `main` (lines 87-117), executed in state `s` with the collaborators
answering as `env` says. -/
def mainStep (env : HalEnv) (s : Sys) : Sys :=
  match s.pc with
  | PC.L91 => { callExt Call.HAL_Init s with pc := PC.L92 }
  | PC.L92 => SystemClock_Config env PC.L93 s
  | PC.L93 => { callExt Call.BSP_SDRAM_Init s with pc := PC.L94 }
  | PC.L94 =>
    let r := LCD_Init s
    { r.2 with lcd_status := r.1, pc := PC.L95 }
  | PC.L95 => OnError_Handler (if s.lcd_status ≠ LCD_OK then 1 else 0) PC.L97 s
  | PC.L97 => { callExt Call.BSP_LCD_LayerDefaultInit s with pc := PC.L98 }
  | PC.L98 => { callExt Call.BSP_LCD_SelectLayer s with pc := PC.L99 }
  | PC.L99 => { LCD_BriefDisplay env s with pc := PC.L102 }
  | PC.L102 => { mainCopyBuffer env s with pc := PC.L103 }
  | PC.L103 => { storePending 0 s with pc := PC.L104 }
  | PC.L104 => { HAL_DSI_Refresh s with pc := PC.L105 }
  | PC.L105 => { LCD_BriefDisplay env s with pc := PC.L106 }
  | PC.L106 => { mainCopyBuffer env s with pc := PC.L107 }
  | PC.L107 => { DrawButton env s with pc := PC.L111 }
  | PC.L111 => if s.pending_buffer < 0 then { s with pc := PC.L113 } else s
  | PC.L113 => { storePending 0 s with pc := PC.L114 }
  | PC.L114 => { HAL_DSI_Refresh s with pc := PC.L111 }
  | PC.clockHang => s
  | PC.L60 => s

/-- The statements at which `main` calls `HAL_DSI_Refresh` (line 94 through `LCD_Init`,
line 288). -/
def callsRefresh : PC → Bool
  | PC.L94 => true
  | PC.L104 => true
  | PC.L114 => true
  | _ => false

/-- The statements at which `main` calls `LCD_BriefDisplay`, `CopyBuffer` or
`DrawButton`. -/
def writesFramebuffer : PC → Bool
  | PC.L99 => true
  | PC.L102 => true
  | PC.L105 => true
  | PC.L106 => true
  | PC.L107 => true
  | _ => false

/-- The statements of the polling loop. -/
def inLoop : PC → Bool
  | PC.L111 => true
  | PC.L113 => true
  | PC.L114 => true
  | _ => false

/-- What can happen next: a statement of `main`, or the end-of-refresh interrupt. -/
inductive Action where
  | main (env : HalEnv)
  | endOfRefresh

/-- One action. The interrupt is delivered only for a refresh that is in flight. -/
def step : Action → Sys → Option Sys
  | Action.main env, s => some (mainStep env s)
  | Action.endOfRefresh, s =>
    if 0 < s.outstanding then
      some (HAL_DSI_EndOfRefreshCallback { s with outstanding := s.outstanding - 1 })
    else
      none

/-- A sequence of actions, from the first to the last. -/
def run : List Action → Sys → Option Sys
  | [], s => some s
  | a :: rest, s =>
    match step a s with
    | some s1 => run rest s1
    | none => none

/-- Repeated execution of the polling-loop body with no interrupt in between. -/
def pollTimes : Nat → Sys → Sys
  | 0, s => s
  | n + 1, s => pollTimes n (PollAndResubmit s)

/-- Repeated execution of statements of `main` with no interrupt in between. -/
def mainSteps (env : HalEnv) : Nat → Sys → Sys
  | 0, s => s
  | n + 1, s => mainSteps env n (mainStep env s)

/-- An execution in which, whenever `main` executes the store of line 103, no refresh is in
flight: the refresh issued by `LCD_Init` has been reported complete before that store. -/
def ackBeforeFlagStore : List Action → Sys → Bool
  | [], _ => true
  | Action.main env :: rest, s =>
    (decide (s.pc ≠ PC.L103) || decide (s.outstanding = 0)) &&
      ackBeforeFlagStore rest (mainStep env s)
  | Action.endOfRefresh :: rest, s =>
    match step Action.endOfRefresh s with
    | some s1 => ackBeforeFlagStore rest s1
    | none => true

/-- The relation between the flag and the refreshes in flight that holds along the
executions described by `ackBeforeFlagStore`. -/
def Handshake (s : Sys) : Prop :=
  match s.pc with
  | PC.L91 | PC.L92 | PC.L93 | PC.L94 | PC.clockHang =>
    s.outstanding = 0 ∧ s.pending_buffer < 0
  | PC.L95 | PC.L97 | PC.L98 | PC.L99 | PC.L102 | PC.L103 | PC.L60 =>
    s.outstanding ≤ 1 ∧ s.pending_buffer < 0
  | PC.L104 | PC.L114 => s.outstanding = 0 ∧ s.pending_buffer ≥ 0
  | PC.L105 | PC.L106 | PC.L107 | PC.L111 =>
    (s.outstanding = 1 ∧ s.pending_buffer ≥ 0) ∨ (s.outstanding = 0 ∧ s.pending_buffer < 0)
  | PC.L113 => s.outstanding = 0 ∧ s.pending_buffer < 0

/-- What every reachable state satisfies: before the store of line 103 the flag still has
its reset value, and afterwards it is `0`, or `-1` written by the callback. -/
def FlagHistory (s : Sys) : Prop :=
  match s.pc with
  | PC.L91 | PC.L92 | PC.L93 | PC.L94 | PC.clockHang
  | PC.L95 | PC.L97 | PC.L98 | PC.L99 | PC.L102 | PC.L103 | PC.L60 =>
    s.pending_buffer = -1
  | PC.L104 | PC.L105 | PC.L106 | PC.L107 | PC.L111 | PC.L113 | PC.L114 =>
    s.pending_buffer = 0 ∨
      (s.pending_buffer = -1 ∧ Event.storePending (-1) ∈ s.trace)

/-! ## Concrete environments and memories used in examples -/

/-- Every call reports success and every transfer completes. The framebuffer is at
`0xC0000000`, the image at `0x08010000`. -/
def envOk : HalEnv :=
  { status := fun _ => HAL_StatusTypeDef.HAL_OK
    startStatus := HAL_StatusTypeDef.HAL_OK
    pollPixels := 320 * 240
    convert := fun v => v
    draw := fun _ m => m
    LCD_FB_START_ADDRESS := 0xC0000000
    image_320x240_argb8888 := 0x08010000 }

/-- As `envOk`, but `HAL_DSI_Init` reports an error. -/
def envDsiInitFails : HalEnv :=
  { envOk with
    status := fun c =>
      if c = Call.HAL_DSI_Init then HAL_StatusTypeDef.HAL_ERROR else HAL_StatusTypeDef.HAL_OK }

/-- As `envOk`, but `HAL_DMA2D_Init` reports an error. -/
def envDma2dInitFails : HalEnv :=
  { envOk with
    status := fun c =>
      if c = Call.HAL_DMA2D_Init then HAL_StatusTypeDef.HAL_ERROR
      else HAL_StatusTypeDef.HAL_OK }

/-- An execution in which each refresh is reported complete before the next one is
requested: nine statements of `main` (through `LCD_Init` up to line 103), the interrupt,
six statements (lines 103-107 and the loop test), the interrupt, and one pass through the
loop body. -/
def ackedSchedule : List Action :=
  List.replicate 9 (Action.main envOk) ++ Action.endOfRefresh ::
    (List.replicate 6 (Action.main envOk) ++ Action.endOfRefresh ::
      List.replicate 3 (Action.main envOk))

/-- The state reached by a sequence of actions, or the starting state when the sequence
asks for an interrupt that cannot be delivered. -/
def runOr (acts : List Action) (s : Sys) : Sys :=
  (run acts s).getD s

/-- A memory in which every word holds its own address. -/
def memId : Mem := fun a => a

/-! ## Properties of the accelerator model -/

theorem u32_sub_of_le (n : Nat) (h : n ≤ 800) : u32 (800 - (n : Int)) = 800 - n := by
  unfold u32
  omega

/-- A cell that is not the destination of any of the first `n` pixels keeps its value. -/
theorem DMA2D_transfer_frame (env : HalEnv) (h : DMA2D_HandleTypeDef) (src dst width : Nat)
    (mem : Mem) (a : Nat) :
    ∀ n, (∀ k, k < n →
        a ≠ pixelAddress dst (bytesPerPixel h.ColorMode) width h.OutputOffset k) →
      DMA2D_transfer env h src dst width mem n a = mem a := by
  intro n
  induction n with
  | zero => intro _; rfl
  | succ n ih =>
    intro hk
    have h1 := hk n (Nat.lt_succ_self n)
    have h2 := ih (fun k hkn => hk k (Nat.lt_succ_of_lt hkn))
    simp only [DMA2D_transfer, Mem.write, if_neg h1]
    exact h2

/-- In memory-to-memory mode, when destination cells are pairwise distinct and no source
cell is a destination cell, each moved destination pixel holds its source pixel. -/
theorem DMA2D_transfer_copy (env : HalEnv) (h : DMA2D_HandleTypeDef) (src dst width : Nat)
    (mem : Mem) (hm : h.Mode = DMA2D_Mode.DMA2D_M2M) :
    ∀ n,
      (∀ k k2, k < n → k2 < n → k ≠ k2 →
        pixelAddress dst (bytesPerPixel h.ColorMode) width h.OutputOffset k ≠
          pixelAddress dst (bytesPerPixel h.ColorMode) width h.OutputOffset k2) →
      (∀ k k2, k < n → k2 < n →
        pixelAddress src (bytesPerPixel h.InputColorMode) width h.InputOffset k ≠
          pixelAddress dst (bytesPerPixel h.ColorMode) width h.OutputOffset k2) →
      ∀ k, k < n →
        DMA2D_transfer env h src dst width mem n
            (pixelAddress dst (bytesPerPixel h.ColorMode) width h.OutputOffset k) =
          mem (pixelAddress src (bytesPerPixel h.InputColorMode) width h.InputOffset k) := by
  intro n
  induction n with
  | zero => intro _ _ k hk; exact absurd hk (Nat.not_lt_zero k)
  | succ n ih =>
    intro hinj hdisj k hk
    simp only [DMA2D_transfer, Mem.write, pixelOut, hm, if_true]
    by_cases hkn : k = n
    · subst hkn
      simp only [if_true]
      exact DMA2D_transfer_frame env h src dst width mem _ k
        (fun k2 hk2 => hdisj k k2 (Nat.lt_succ_self k) (Nat.lt_succ_of_lt hk2))
    · have hlt : k < n := by omega
      have hne := hinj k n hk (Nat.lt_succ_self n) hkn
      rw [if_neg hne]
      exact ih
        (fun a b ha hb hab => hinj a b (Nat.lt_succ_of_lt ha) (Nat.lt_succ_of_lt hb) hab)
        (fun a b ha hb => hdisj a b (Nat.lt_succ_of_lt ha) (Nat.lt_succ_of_lt hb))
        k hlt

/-! ## Address arithmetic of `CopyBuffer` -/

/-- Destination address of pixel `k` of the transfer programmed by `CopyBuffer`, for a
region that lies inside an 800 x 480 framebuffer at `pDst`. -/
theorem CopyBuffer_dst_address (pDst x y xs k : Nat) (hxs : 0 < xs) (hx : x + xs ≤ 800)
    (hrow : y + k / xs < 480) (hfb : pDst + 4 * (800 * 480) ≤ 4294967296) :
    pixelAddress (CopyBuffer_destination pDst x y) 4 xs (800 - xs) k =
      pDst + 4 * ((y + k / xs) * 800 + (x + k % xs)) := by
  have hi : k % xs < xs := Nat.mod_lt k hxs
  have hw : xs + (800 - xs) = 800 := by omega
  unfold pixelAddress CopyBuffer_destination
  rw [hw]
  generalize k / xs = j at hrow ⊢
  generalize k % xs = i at hi ⊢
  omega

/-- Source address of pixel `k`: the source is read as a packed array. -/
theorem CopyBuffer_src_address (pSrc xs k : Nat) (hs : pSrc + 4 * k < 4294967296) :
    pixelAddress (pSrc % 4294967296) 4 xs 0 k = pSrc + 4 * k := by
  have hk : k / xs * xs + k % xs = k := Nat.div_add_mod' k xs
  unfold pixelAddress
  rw [Nat.add_zero, hk]
  omega

theorem rowMajor_lt (xs ys i j : Nat) (hi : i < xs) (hj : j < ys) : j * xs + i < xs * ys := by
  have h1 : (j + 1) * xs ≤ ys * xs := Nat.mul_le_mul_right xs hj
  have h2 : (j + 1) * xs = j * xs + xs := by ring
  have h3 : ys * xs = xs * ys := Nat.mul_comm ys xs
  omega

theorem rowMajor_div (xs i j : Nat) (hi : i < xs) : (j * xs + i) / xs = j := by
  have hxs : 0 < xs := by omega
  rw [Nat.add_comm, Nat.add_mul_div_right i j hxs, Nat.div_eq_of_lt hi, Nat.zero_add]

theorem rowMajor_mod (xs i j : Nat) (hi : i < xs) : (j * xs + i) % xs = i := by
  rw [Nat.add_comm, Nat.add_mul_mod_self_right, Nat.mod_eq_of_lt hi]

theorem u16_of_lt (n : Nat) (h : n < 65536) : u16 n = n := Nat.mod_eq_of_lt h

/-- The memory produced by `CopyBuffer` is the input memory or the result of moving some
number of pixels, at most `xsize * ysize`, with the configuration of `CopyBuffer`. -/
theorem CopyBuffer_mem_cases (env : HalEnv) (mem : Mem) (pSrc pDst x y xs ys : Nat)
    (hx : x < 65536) (hy : y < 65536) (hxs : xs < 65536) (hys : ys < 65536) :
    ∃ n, n ≤ xs * ys ∧
      (CopyBuffer env mem pSrc pDst x y xs ys).1 =
        DMA2D_transfer env (CopyBuffer_config xs) (pSrc % 4294967296)
          (CopyBuffer_destination pDst x y) xs mem n := by
  unfold CopyBuffer
  rw [u16_of_lt x hx, u16_of_lt y hy, u16_of_lt xs hxs, u16_of_lt ys hys]
  by_cases h1 : env.status Call.HAL_DMA2D_Init = HAL_StatusTypeDef.HAL_OK
  · by_cases h2 : env.status Call.HAL_DMA2D_ConfigLayer = HAL_StatusTypeDef.HAL_OK
    · by_cases h3 : env.startStatus = HAL_StatusTypeDef.HAL_OK
      · simp only [h1, h2, h3, if_true]
        exact ⟨min env.pollPixels (xs * ys), Nat.min_le_right _ _, rfl⟩
      · simp only [h1, h2, h3, if_true, if_false]
        exact ⟨0, Nat.zero_le _, rfl⟩
    · simp only [h1, h2, if_true, if_false]
      exact ⟨0, Nat.zero_le _, rfl⟩
  · simp only [h1, if_false]
    exact ⟨0, Nat.zero_le _, rfl⟩

/-- Destination address of pixel `k` in the terms of the handle written by `CopyBuffer`. -/
theorem CopyBuffer_dst_address_cfg (pDst x y xs ys k : Nat) (hx : x + xs ≤ 800)
    (hy : y + ys ≤ 480) (hk : k < xs * ys) (hfb : pDst + 4 * (800 * 480) ≤ 4294967296) :
    pixelAddress (CopyBuffer_destination pDst x y) (bytesPerPixel (CopyBuffer_config xs).ColorMode)
        xs (CopyBuffer_config xs).OutputOffset k =
      pDst + 4 * ((y + k / xs) * 800 + (x + k % xs)) ∧ k / xs < ys ∧ k % xs < xs := by
  have hxs : 0 < xs := by
    rcases Nat.eq_zero_or_pos xs with h0 | h0
    · rw [h0, Nat.zero_mul] at hk
      exact absurd hk (Nat.not_lt_zero k)
    · exact h0
  have hj : k / xs < ys := Nat.div_lt_of_lt_mul hk
  have hi : k % xs < xs := Nat.mod_lt k hxs
  have ho : (CopyBuffer_config xs).OutputOffset = 800 - xs := u32_sub_of_le xs (by omega)
  have hb : bytesPerPixel (CopyBuffer_config xs).ColorMode = 4 := rfl
  rw [ho, hb, CopyBuffer_dst_address pDst x y xs k hxs hx (by omega) hfb]
  exact ⟨rfl, hj, hi⟩

/-- Source address of pixel `k` in the terms of the handle written by `CopyBuffer`. -/
theorem CopyBuffer_src_address_cfg (pSrc xs k : Nat) (hs : pSrc + 4 * k < 4294967296) :
    pixelAddress (pSrc % 4294967296) (bytesPerPixel (CopyBuffer_config xs).InputColorMode)
        xs (CopyBuffer_config xs).InputOffset k = pSrc + 4 * k :=
  CopyBuffer_src_address pSrc xs k hs

/-- Claim C6. For every `x, y, xsize, ysize` with `x + xsize ≤ 800` and the destination
region inside an 800 x 480 framebuffer at `pDst`, `CopyBuffer` leaves every framebuffer
pixel outside the rectangle `[x, x+xsize) x [y, y+ysize)` unchanged, whatever the
accelerator calls report; a copy with `xsize = 0` or `ysize = 0` returns and changes no
memory at all. -/
theorem C6_CopyBuffer_frame (env : HalEnv) (mem : Mem) (pSrc pDst x y xsize ysize : Nat)
    (hx : x + xsize ≤ 800) (hy : y + ysize ≤ 480)
    (hfb : pDst + 4 * (800 * 480) ≤ 4294967296) :
    (∀ k, k < 800 * 480 →
        ¬ (x ≤ k % 800 ∧ k % 800 < x + xsize ∧ y ≤ k / 800 ∧ k / 800 < y + ysize) →
        (CopyBuffer env mem pSrc pDst x y xsize ysize).1 (pDst + 4 * k) =
          mem (pDst + 4 * k)) ∧
      (xsize = 0 ∨ ysize = 0 → (CopyBuffer env mem pSrc pDst x y xsize ysize).1 = mem) := by
  obtain ⟨n, hn, heq⟩ := CopyBuffer_mem_cases env mem pSrc pDst x y xsize ysize
    (by omega) (by omega) (by omega) (by omega)
  rw [heq]
  constructor
  · intro k _ hout
    apply DMA2D_transfer_frame
    intro k2 hk2
    obtain ⟨ha, hj, hi⟩ := CopyBuffer_dst_address_cfg pDst x y xsize ysize k2 hx hy
      (Nat.lt_of_lt_of_le hk2 hn) hfb
    rw [ha]
    generalize k2 / xsize = j at hj ⊢
    generalize k2 % xsize = i at hi ⊢
    omega
  · intro hz
    have h0 : xsize * ysize = 0 := by
      rcases hz with h | h
      · rw [h, Nat.zero_mul]
      · rw [h, Nat.mul_zero]
    have hn0 : n = 0 := by omega
    rw [hn0]
    rfl

/-- Witness for C6: a 2 x 2 copy at (1, 1), where pixel index 0 lies outside the rectangle,
and a copy of width 0 at (1, 1), which changes nothing. -/
theorem C6_CopyBuffer_frame_witness :
    (CopyBuffer envOk memId 0x08010000 0xC0000000 1 1 2 2).1 (0xC0000000 + 4 * 0) =
        memId (0xC0000000 + 4 * 0) ∧
      (CopyBuffer envOk memId 0x08010000 0xC0000000 1 1 0 2).1 = memId :=
  ⟨(C6_CopyBuffer_frame envOk memId 0x08010000 0xC0000000 1 1 2 2 (by decide) (by decide)
      (by decide)).1 0 (by decide) (by decide),
    (C6_CopyBuffer_frame envOk memId 0x08010000 0xC0000000 1 1 0 2 (by decide) (by decide)
      (by decide)).2 (Or.inl rfl)⟩

/-- Claim C7. When `HAL_DMA2D_Init` reports failure, or `HAL_DMA2D_ConfigLayer` does,
`CopyBuffer` never calls `HAL_DMA2D_Start` and the memory after the call is the memory
before it. -/
theorem C7_CopyBuffer_init_failure (env : HalEnv) (mem : Mem)
    (pSrc pDst x y xsize ysize : Nat)
    (hfail : env.status Call.HAL_DMA2D_Init ≠ HAL_StatusTypeDef.HAL_OK ∨
      env.status Call.HAL_DMA2D_ConfigLayer ≠ HAL_StatusTypeDef.HAL_OK) :
    (CopyBuffer env mem pSrc pDst x y xsize ysize).1 = mem ∧
      (∀ s d w h, Event.HAL_DMA2D_Start s d w h ∉
        (CopyBuffer env mem pSrc pDst x y xsize ysize).2) ∧
      Event.call Call.HAL_DMA2D_PollForTransfer ∉
        (CopyBuffer env mem pSrc pDst x y xsize ysize).2 := by
  unfold CopyBuffer
  by_cases h1 : env.status Call.HAL_DMA2D_Init = HAL_StatusTypeDef.HAL_OK
  · have h2 : env.status Call.HAL_DMA2D_ConfigLayer ≠ HAL_StatusTypeDef.HAL_OK := by
      rcases hfail with h | h
      · exact absurd h1 h
      · exact h
    simp [h1, h2]
  · simp [h1]

/-- Witness for C7: `HAL_DMA2D_Init` reports `HAL_ERROR`. -/
theorem C7_CopyBuffer_init_failure_witness :
    (CopyBuffer envDma2dInitFails memId 0x08010000 0xC0000000 50 160 320 240).1 = memId ∧
      (∀ s d w h, Event.HAL_DMA2D_Start s d w h ∉
        (CopyBuffer envDma2dInitFails memId 0x08010000 0xC0000000 50 160 320 240).2) ∧
      Event.call Call.HAL_DMA2D_PollForTransfer ∉
        (CopyBuffer envDma2dInitFails memId 0x08010000 0xC0000000 50 160 320 240).2 :=
  C7_CopyBuffer_init_failure envDma2dInitFails memId 0x08010000 0xC0000000 50 160 320 240
    (Or.inl (by decide))

/-- Claim C5. For every `x, y, xsize, ysize` with `x + xsize ≤ 800` and `y + ysize ≤ 480`,
for a framebuffer at `pDst` and a source array of `xsize * ysize` words at `pSrc` that
does not overlap it, when `HAL_DMA2D_Init`, `HAL_DMA2D_ConfigLayer` and `HAL_DMA2D_Start`
report `HAL_OK` and the polled transfer completes, `CopyBuffer` starts the transfer at
`pDst + (y*800 + x)*4` with output offset `800 - xsize`, input offset `0`, mode
memory-to-memory, ARGB8888 on both sides and the alpha left unmodified, and afterwards the
destination word at pixel index `(y+j)*800 + (x+i)` equals the source word at index
`j*xsize + i` of the memory before the call, for every `i < xsize` and `j < ysize`. -/
theorem C5_CopyBuffer_copies (env : HalEnv) (mem : Mem) (pSrc pDst x y xsize ysize i j : Nat)
    (hx : x + xsize ≤ 800) (hy : y + ysize ≤ 480)
    (hfb : pDst + 4 * (800 * 480) ≤ 4294967296)
    (hsrc : pSrc + 4 * (xsize * ysize) ≤ 4294967296)
    (hsep : pSrc + 4 * (xsize * ysize) ≤ pDst ∨ pDst + 4 * (800 * 480) ≤ pSrc)
    (hinit : env.status Call.HAL_DMA2D_Init = HAL_StatusTypeDef.HAL_OK)
    (hcfg : env.status Call.HAL_DMA2D_ConfigLayer = HAL_StatusTypeDef.HAL_OK)
    (hstart : env.startStatus = HAL_StatusTypeDef.HAL_OK)
    (hpoll : xsize * ysize ≤ env.pollPixels)
    (hi : i < xsize) (hj : j < ysize) :
    (CopyBuffer env mem pSrc pDst x y xsize ysize).1 (pDst + 4 * ((y + j) * 800 + (x + i))) =
        mem (pSrc + 4 * (j * xsize + i)) ∧
      (CopyBuffer env mem pSrc pDst x y xsize ysize).2 =
        [Event.call Call.HAL_DMA2D_Init, Event.call Call.HAL_DMA2D_ConfigLayer,
         Event.HAL_DMA2D_Start pSrc (pDst + (y * 800 + x) * 4) xsize ysize,
         Event.call Call.HAL_DMA2D_PollForTransfer] ∧
      (CopyBuffer_config xsize).OutputOffset = 800 - xsize ∧
      (CopyBuffer_config xsize).InputOffset = 0 ∧
      (CopyBuffer_config xsize).Mode = DMA2D_Mode.DMA2D_M2M ∧
      (CopyBuffer_config xsize).ColorMode = DMA2D_Color.ARGB8888 ∧
      (CopyBuffer_config xsize).InputColorMode = DMA2D_Color.ARGB8888 ∧
      (CopyBuffer_config xsize).AlphaMode = DMA2D_Alpha.DMA2D_NO_MODIF_ALPHA := by
  have hk : j * xsize + i < xsize * ysize := rowMajor_lt xsize ysize i j hi hj
  have hsrcmod : pSrc % 4294967296 = pSrc := Nat.mod_eq_of_lt (by omega)
  have hdst : CopyBuffer_destination pDst x y = pDst + (y * 800 + x) * 4 := by
    unfold CopyBuffer_destination
    omega
  refine ⟨?_, ?_, u32_sub_of_le xsize (by omega), rfl, rfl, rfl, rfl, rfl⟩
  · unfold CopyBuffer
    rw [u16_of_lt x (by omega), u16_of_lt y (by omega), u16_of_lt xsize (by omega),
      u16_of_lt ysize (by omega)]
    simp only [hinit, hcfg, hstart, if_true, DMA2D_run, Nat.min_eq_right hpoll]
    obtain ⟨ha, _, _⟩ := CopyBuffer_dst_address_cfg pDst x y xsize ysize (j * xsize + i)
      hx hy hk hfb
    rw [rowMajor_div xsize i j hi, rowMajor_mod xsize i j hi] at ha
    have hs := CopyBuffer_src_address_cfg pSrc xsize (j * xsize + i) (by omega)
    rw [← ha, ← hs]
    apply DMA2D_transfer_copy env (CopyBuffer_config xsize) _ _ xsize mem rfl
      (xsize * ysize)
    · intro k k2 hk1 hk2 hne
      obtain ⟨ha1, hj1, hi1⟩ := CopyBuffer_dst_address_cfg pDst x y xsize ysize k hx hy hk1 hfb
      obtain ⟨ha2, hj2, hi2⟩ := CopyBuffer_dst_address_cfg pDst x y xsize ysize k2 hx hy hk2 hfb
      rw [ha1, ha2]
      intro heq
      have e1 : k / xsize * xsize + k % xsize = k := Nat.div_add_mod' k xsize
      have e2 : k2 / xsize * xsize + k2 % xsize = k2 := Nat.div_add_mod' k2 xsize
      have hq : k / xsize = k2 / xsize := by omega
      have hr : k % xsize = k2 % xsize := by omega
      rw [hq, hr] at e1
      exact hne (e1.symm.trans e2)
    · intro k k2 hk1 hk2
      obtain ⟨ha2, hj2, hi2⟩ := CopyBuffer_dst_address_cfg pDst x y xsize ysize k2 hx hy hk2 hfb
      rw [ha2, CopyBuffer_src_address_cfg pSrc xsize k (by omega)]
      generalize k2 / xsize = q at hj2 ⊢
      generalize k2 % xsize = r at hi2 ⊢
      omega
    · exact hk
  · unfold CopyBuffer
    rw [u16_of_lt x (by omega), u16_of_lt y (by omega), u16_of_lt xsize (by omega),
      u16_of_lt ysize (by omega)]
    simp only [hinit, hcfg, hstart, if_true, hsrcmod, hdst]

/-- Witness for C5: the example of the specification, a 2 x 2 block copied to offset
(1, 1); the pixel `(i, j) = (1, 1)` lands at destination index `2*800 + 2`. -/
theorem C5_CopyBuffer_copies_witness :
    (CopyBuffer envOk memId 0x08010000 0xC0000000 1 1 2 2).1
        (0xC0000000 + 4 * ((1 + 1) * 800 + (1 + 1))) = memId (0x08010000 + 4 * (1 * 2 + 1)) ∧
      (CopyBuffer envOk memId 0x08010000 0xC0000000 1 1 2 2).2 =
        [Event.call Call.HAL_DMA2D_Init, Event.call Call.HAL_DMA2D_ConfigLayer,
         Event.HAL_DMA2D_Start 0x08010000 (0xC0000000 + (1 * 800 + 1) * 4) 2 2,
         Event.call Call.HAL_DMA2D_PollForTransfer] ∧
      (CopyBuffer_config 2).OutputOffset = 800 - 2 ∧
      (CopyBuffer_config 2).InputOffset = 0 ∧
      (CopyBuffer_config 2).Mode = DMA2D_Mode.DMA2D_M2M ∧
      (CopyBuffer_config 2).ColorMode = DMA2D_Color.ARGB8888 ∧
      (CopyBuffer_config 2).InputColorMode = DMA2D_Color.ARGB8888 ∧
      (CopyBuffer_config 2).AlphaMode = DMA2D_Alpha.DMA2D_NO_MODIF_ALPHA :=
  C5_CopyBuffer_copies envOk memId 0x08010000 0xC0000000 1 1 2 2 1 1 (by decide) (by decide)
    (by decide) (by decide) (Or.inl (by decide)) rfl rfl rfl (by decide) (by decide)
    (by decide)

/-- Claim C10. The arguments `x = 50, y = 160, xsize = 320, ysize = 240` that `main` passes
to `CopyBuffer` at lines 102 and 106 fit `uint16_t` and satisfy the precondition on the
800 x 480 framebuffer: `x + xsize ≤ HACT`, `y + ysize ≤ VACT`, every destination pixel index
`(y+j)*800 + (x+i)` lies below `800*480`, the byte offset `(y*800 + x)*4 = 512200` stays
below `2^31` and is added to the framebuffer address without wrap-around, and the output
offset `800 - xsize` is the non-negative value `480`. -/
theorem C10_main_copy_within_bounds (env : HalEnv) (s : Sys) :
    mainCopyBuffer env s =
        { s with
          mem := (CopyBuffer env s.mem env.image_320x240_argb8888 env.LCD_FB_START_ADDRESS
            50 160 320 240).1
          trace := s.trace ++ (CopyBuffer env s.mem env.image_320x240_argb8888
            env.LCD_FB_START_ADDRESS 50 160 320 240).2 } ∧
      (u16 50 = 50 ∧ u16 160 = 160 ∧ u16 320 = 320 ∧ u16 240 = 240) ∧
      50 + 320 ≤ HACT ∧ 160 + 240 ≤ VACT ∧
      (∀ i j, i < 320 → j < 240 → (160 + j) * HACT + (50 + i) < HACT * VACT) ∧
      (160 * 800 + 50) * 4 = 512200 ∧ (160 * 800 + 50) * 4 < 2 ^ 31 ∧
      (env.LCD_FB_START_ADDRESS + 4 * (HACT * VACT) ≤ 2 ^ 32 →
        CopyBuffer_destination env.LCD_FB_START_ADDRESS 50 160 =
          env.LCD_FB_START_ADDRESS + 512200) ∧
      (0 : Int) ≤ 800 - 320 ∧ (CopyBuffer_config 320).OutputOffset = 480 := by
  refine ⟨rfl, ⟨rfl, rfl, rfl, rfl⟩, by decide, by decide, ?_, rfl, by decide, ?_,
    by decide, by decide⟩
  · intro i j hi hj
    unfold HACT VACT
    omega
  · unfold HACT VACT CopyBuffer_destination
    intro h
    omega

/-- Witness for C10: the last pixel of the image, and the framebuffer at `0xC0000000`. -/
theorem C10_main_copy_within_bounds_witness :
    (160 + 239) * HACT + (50 + 319) < HACT * VACT ∧
      CopyBuffer_destination envOk.LCD_FB_START_ADDRESS 50 160 =
        envOk.LCD_FB_START_ADDRESS + 512200 :=
  ⟨(C10_main_copy_within_bounds envOk (powerOn memId)).2.2.2.2.1 319 239 (by decide)
      (by decide),
    (C10_main_copy_within_bounds envOk (powerOn memId)).2.2.2.2.2.2.2.1 (by decide)⟩

/-! ## The refresh handshake -/

theorem refreshCount_RequestRefresh (s : Sys) :
    refreshCount (RequestRefresh s) = refreshCount s + 1 := by
  simp [refreshCount, RequestRefresh, HAL_DSI_Refresh, storePending, List.count_append]

theorem pending_RequestRefresh (s : Sys) : (RequestRefresh s).pending_buffer = 0 := rfl

/-- Claim C1. Started from any state, `pending_buffer = 0; HAL_DSI_Refresh(&hdsi_eval);`
leaves `pending_buffer ≥ 0` (Pending) and appends to the trace exactly the store of the
flag followed by one `HAL_DSI_Refresh` call: one refresh command more has been issued and
is in flight, and the flag was written before it. Lines 103-104 and lines 113-114 of `main`
both execute this pair. -/
theorem C1_RequestRefresh (env : HalEnv) (s : Sys) :
    (RequestRefresh s).pending_buffer ≥ 0 ∧
      (RequestRefresh s).trace =
        s.trace ++ [Event.storePending 0, Event.call Call.HAL_DSI_Refresh] ∧
      refreshCount (RequestRefresh s) = refreshCount s + 1 ∧
      (RequestRefresh s).outstanding = s.outstanding + 1 ∧
      mainStep env (mainStep env { s with pc := PC.L103 }) =
        { RequestRefresh s with pc := PC.L105 } ∧
      mainStep env (mainStep env { s with pc := PC.L113 }) =
        { RequestRefresh s with pc := PC.L111 } := by
  refine ⟨?_, ?_, refreshCount_RequestRefresh s, rfl, rfl, rfl⟩
  · rw [pending_RequestRefresh]
  · simp [RequestRefresh, HAL_DSI_Refresh, storePending]

theorem callback_of_pending (s : Sys) (h : s.pending_buffer ≥ 0) :
    HAL_DSI_EndOfRefreshCallback s = storePending (-1) s := by
  unfold HAL_DSI_EndOfRefreshCallback
  rw [if_pos h]

theorem callback_of_idle (s : Sys) (h : s.pending_buffer < 0) :
    HAL_DSI_EndOfRefreshCallback s = s := by
  unfold HAL_DSI_EndOfRefreshCallback
  rw [if_neg (by omega)]

theorem callback_idle (s : Sys) : (HAL_DSI_EndOfRefreshCallback s).pending_buffer < 0 := by
  by_cases h : s.pending_buffer ≥ 0
  · rw [callback_of_pending s h]
    show (-1 : Int) < 0
    decide
  · have h2 : s.pending_buffer < 0 := by omega
    rw [callback_of_idle s h2]
    exact h2

/-- Claim C2. For every value of `pending_buffer`, `HAL_DSI_EndOfRefreshCallback` leaves
`pending_buffer < 0` (Idle): a value `≥ 0` becomes `-1`, a state with a value `< 0` is
returned exactly as it was, so running the callback twice gives the same state as running
it once; `RequestRefresh` leaves Pending, the callback after it leaves `-1`, and a second
callback leaves that state untouched. -/
theorem C2_EndOfRefreshCallback (s : Sys) :
    (HAL_DSI_EndOfRefreshCallback s).pending_buffer < 0 ∧
      (HAL_DSI_EndOfRefreshCallback s).pending_buffer =
        (if s.pending_buffer ≥ 0 then -1 else s.pending_buffer) ∧
      (s.pending_buffer < 0 → HAL_DSI_EndOfRefreshCallback s = s) ∧
      HAL_DSI_EndOfRefreshCallback (HAL_DSI_EndOfRefreshCallback s) =
        HAL_DSI_EndOfRefreshCallback s ∧
      (RequestRefresh s).pending_buffer ≥ 0 ∧
      (HAL_DSI_EndOfRefreshCallback (RequestRefresh s)).pending_buffer = -1 ∧
      HAL_DSI_EndOfRefreshCallback (HAL_DSI_EndOfRefreshCallback (RequestRefresh s)) =
        HAL_DSI_EndOfRefreshCallback (RequestRefresh s) := by
  refine ⟨callback_idle s, ?_, callback_of_idle s,
    callback_of_idle _ (callback_idle s), ?_, ?_,
    callback_of_idle _ (callback_idle (RequestRefresh s))⟩
  · by_cases h : s.pending_buffer ≥ 0
    · rw [callback_of_pending s h, if_pos h]
      rfl
    · rw [callback_of_idle s (by omega), if_neg h]
  · rw [pending_RequestRefresh]
  · rw [callback_of_pending _ (by rw [pending_RequestRefresh])]
    rfl

/-- Witness for C2: the callback run in the reset state, where `pending_buffer = -1`. -/
theorem C2_EndOfRefreshCallback_witness :
    (powerOn memId).pending_buffer < 0 ∧
      HAL_DSI_EndOfRefreshCallback (powerOn memId) = powerOn memId :=
  ⟨by decide, (C2_EndOfRefreshCallback (powerOn memId)).2.2.1 (by decide)⟩

theorem PollAndResubmit_of_idle (s : Sys) (h : s.pending_buffer < 0) :
    PollAndResubmit s = RequestRefresh s := by
  unfold PollAndResubmit
  rw [if_pos h]

theorem PollAndResubmit_of_pending (s : Sys) (h : ¬ s.pending_buffer < 0) :
    PollAndResubmit s = s := by
  unfold PollAndResubmit
  rw [if_neg h]

theorem pollTimes_of_pending (n : Nat) :
    ∀ s : Sys, ¬ s.pending_buffer < 0 → pollTimes n s = s := by
  induction n with
  | zero => intro s _; rfl
  | succ n ih =>
    intro s h
    show pollTimes n (PollAndResubmit s) = s
    rw [PollAndResubmit_of_pending s h]
    exact ih s h

theorem pollTimes_refreshCount (n : Nat) (s : Sys) :
    refreshCount (pollTimes n s) ≤ refreshCount s + 1 := by
  cases n with
  | zero => exact Nat.le_succ _
  | succ n =>
    show refreshCount (pollTimes n (PollAndResubmit s)) ≤ refreshCount s + 1
    by_cases h : s.pending_buffer < 0
    · rw [PollAndResubmit_of_idle s h,
        pollTimes_of_pending n _ (by rw [pending_RequestRefresh]; decide),
        refreshCount_RequestRefresh]
    · rw [PollAndResubmit_of_pending s h, pollTimes_of_pending n s h]
      exact Nat.le_succ _

/-- Claim C3. One pass through the body of the polling loop issues a refresh request if and
only if `pending_buffer < 0` on entry, and returns the state unchanged otherwise; for every
starting state and every `n`, `n` passes with no callback in between issue at most one
refresh request. The statements of lines 111-114 executed one by one from line 111 until
control is back at line 111 compute the same state. -/
theorem C3_PollAndResubmit (env : HalEnv) (s : Sys) (n : Nat) :
    (refreshCount (PollAndResubmit s) = refreshCount s + 1 ↔ s.pending_buffer < 0) ∧
      (¬ s.pending_buffer < 0 → PollAndResubmit s = s) ∧
      refreshCount (PollAndResubmit s) ≤ refreshCount s + 1 ∧
      refreshCount (pollTimes n s) ≤ refreshCount s + 1 ∧
      (s.pc = PC.L111 →
        (if s.pending_buffer < 0 then mainStep env (mainStep env (mainStep env s))
          else mainStep env s) = PollAndResubmit s) := by
  refine ⟨?_, PollAndResubmit_of_pending s, pollTimes_refreshCount 1 s,
    pollTimes_refreshCount n s, ?_⟩
  · by_cases h : s.pending_buffer < 0
    · rw [PollAndResubmit_of_idle s h, refreshCount_RequestRefresh]
      exact ⟨fun _ => h, fun _ => rfl⟩
    · rw [PollAndResubmit_of_pending s h]
      exact ⟨fun he => absurd he (by omega), fun hp => absurd hp h⟩
  · intro hpc
    by_cases h : s.pending_buffer < 0
    · rw [if_pos h, PollAndResubmit_of_idle s h]
      have h1 : mainStep env s = { s with pc := PC.L113 } := by
        simp [mainStep, hpc, h]
      rw [h1]
      cases s
      simp only at hpc
      subst hpc
      rfl
    · rw [if_neg h, PollAndResubmit_of_pending s h]
      simp [mainStep, hpc, h]

/-- Witness for C3: a state at line 111 with a refresh pending (`pending_buffer = 0`);
the pass changes nothing. -/
theorem C3_PollAndResubmit_witness :
    PollAndResubmit { powerOn memId with pc := PC.L111, pending_buffer := 0 } =
        { powerOn memId with pc := PC.L111, pending_buffer := 0 } ∧
      (if (0 : Int) < 0 then
          mainStep envOk (mainStep envOk (mainStep envOk
            { powerOn memId with pc := PC.L111, pending_buffer := 0 }))
        else mainStep envOk { powerOn memId with pc := PC.L111, pending_buffer := 0 }) =
        PollAndResubmit { powerOn memId with pc := PC.L111, pending_buffer := 0 } :=
  ⟨(C3_PollAndResubmit envOk { powerOn memId with pc := PC.L111, pending_buffer := 0 } 0).2.1
      (by decide),
    (C3_PollAndResubmit envOk { powerOn memId with pc := PC.L111, pending_buffer := 0 }
      0).2.2.2.2 rfl⟩

/-! ## Whole-program executions -/

theorem run_mainSteps (env : HalEnv) (n : Nat) :
    ∀ s : Sys, run (List.replicate n (Action.main env)) s = some (mainSteps env n s) := by
  induction n with
  | zero => intro s; rfl
  | succ n ih => intro s; exact ih (mainStep env s)

theorem Handshake_mainStep (env : HalEnv) (s : Sys) (h : Handshake s)
    (hack : s.pc = PC.L103 → s.outstanding = 0) : Handshake (mainStep env s) := by
  obtain ⟨pc, pb, ls, out, mem, tr⟩ := s
  cases pc <;>
    simp only [Handshake, mainStep, callExt, drawExt, storePending, HAL_DSI_Refresh,
      OnError_Handler, SystemClock_Config, LCD_Init, LTDC_Init, LCD_BriefDisplay,
      mainCopyBuffer, DrawButton] at h hack ⊢ <;>
    (try split_ifs) <;>
    (try simp only [Handshake]) <;>
    (try simp only [true_implies] at hack) <;>
    omega

theorem Handshake_endOfRefresh (s s1 : Sys) (h : Handshake s)
    (hs : step Action.endOfRefresh s = some s1) : Handshake s1 := by
  obtain ⟨pc, pb, ls, out, mem, tr⟩ := s
  simp only [step] at hs
  split_ifs at hs with hout
  simp only [Option.some.injEq] at hs
  subst hs
  cases pc <;>
    simp only [Handshake, HAL_DSI_EndOfRefreshCallback, storePending] at h hout ⊢ <;>
    split_ifs <;>
    simp only [Handshake] <;>
    omega

theorem Handshake_run (acts : List Action) :
    ∀ s s1 : Sys, Handshake s → ackBeforeFlagStore acts s = true → run acts s = some s1 →
      Handshake s1 := by
  induction acts with
  | nil =>
    intro s s1 h _ hr
    simp only [run, Option.some.injEq] at hr
    rw [← hr]
    exact h
  | cons a rest ih =>
    intro s s1 h hack hr
    cases a with
    | main env =>
      simp only [ackBeforeFlagStore, Bool.and_eq_true, Bool.or_eq_true,
        decide_eq_true_eq] at hack
      simp only [run, step] at hr
      refine ih (mainStep env s) s1 (Handshake_mainStep env s h ?_) hack.2 hr
      intro hpc
      rcases hack.1 with h1 | h1
      · exact absurd hpc h1
      · exact h1
    | endOfRefresh =>
      simp only [run] at hr
      simp only [ackBeforeFlagStore] at hack
      cases hstep : step Action.endOfRefresh s with
      | none => rw [hstep] at hr; exact absurd hr (by simp)
      | some s2 =>
        rw [hstep] at hr hack
        exact ih s2 s1 (Handshake_endOfRefresh s s2 h hstep) hack hr

theorem Handshake_powerOn (mem : Mem) : Handshake (powerOn mem) := by
  refine ⟨rfl, ?_⟩
  show (-1 : Int) < 0
  decide

theorem Handshake_outstanding (s : Sys) (h : Handshake s) :
    s.outstanding ≤ 1 ∧ (callsRefresh s.pc = true → s.outstanding = 0) := by
  obtain ⟨pc, pb, ls, out, mem, tr⟩ := s
  cases pc <;> simp only [Handshake, callsRefresh] at h ⊢ <;>
    refine ⟨by omega, fun hc => ?_⟩ <;>
    first
      | omega
      | exact absurd hc (by decide)

theorem FlagHistory_mainStep (env : HalEnv) (s : Sys) (h : FlagHistory s) :
    FlagHistory (mainStep env s) := by
  obtain ⟨pc, pb, ls, out, mem, tr⟩ := s
  cases pc <;>
    simp only [FlagHistory, mainStep, callExt, drawExt, storePending, HAL_DSI_Refresh,
      OnError_Handler, SystemClock_Config, LCD_Init, LTDC_Init, LCD_BriefDisplay,
      mainCopyBuffer, DrawButton] at h ⊢ <;>
    (try split_ifs) <;>
    (try simp only [FlagHistory]) <;>
    first
      | exact h
      | trivial
      | (rcases h with h | h
         · exact Or.inl h
         · exact Or.inr ⟨h.1, by simp [h.2]⟩)
      | simp_all

theorem FlagHistory_endOfRefresh (s s1 : Sys) (h : FlagHistory s)
    (hs : step Action.endOfRefresh s = some s1) : FlagHistory s1 := by
  obtain ⟨pc, pb, ls, out, mem, tr⟩ := s
  simp only [step] at hs
  split_ifs at hs with hout
  simp only [Option.some.injEq] at hs
  subst hs
  cases pc <;>
    simp only [FlagHistory, HAL_DSI_EndOfRefreshCallback, storePending] at h ⊢ <;>
    split_ifs with hp <;>
    simp only [FlagHistory] <;>
    first
      | exact h
      | trivial
      | exact absurd hp (by omega)
      | simp_all

theorem FlagHistory_run (acts : List Action) :
    ∀ s s1 : Sys, FlagHistory s → run acts s = some s1 → FlagHistory s1 := by
  induction acts with
  | nil =>
    intro s s1 h hr
    simp only [run, Option.some.injEq] at hr
    rw [← hr]
    exact h
  | cons a rest ih =>
    intro s s1 h hr
    simp only [run] at hr
    cases hstep : step a s with
    | none => rw [hstep] at hr; exact absurd hr (by simp)
    | some s2 =>
      rw [hstep] at hr
      cases a with
      | main env =>
        simp only [step, Option.some.injEq] at hstep
        rw [← hstep] at hr
        exact ih _ s1 (FlagHistory_mainStep env s h) hr
      | endOfRefresh => exact ih s2 s1 (FlagHistory_endOfRefresh s s2 h hstep) hr

theorem FlagHistory_powerOn (mem : Mem) : FlagHistory (powerOn mem) := rfl

theorem mainSteps_halted (env : HalEnv) (n : Nat) :
    ∀ s : Sys, s.pc = PC.L60 → mainSteps env n s = s := by
  induction n with
  | zero => intro s _; rfl
  | succ n ih =>
    intro s h
    have h1 : mainStep env s = s := by simp only [mainStep, h]
    show mainSteps env n (mainStep env s) = s
    rw [h1]
    exact ih s h

/-! ## Outstanding refreshes -/

/-- Claim C4 as stated fails. Ten statements of `main` with no interrupt lead to line 104
with the refresh issued by `LCD_Init` (line 288) still in flight; line 104 then calls
`HAL_DSI_Refresh` all the same, and two refreshes are outstanding. -/
theorem C4_second_refresh_while_outstanding :
    run (List.replicate 11 (Action.main envOk)) (powerOn memId) =
        some (mainSteps envOk 11 (powerOn memId)) ∧
      (mainSteps envOk 10 (powerOn memId)).pc = PC.L104 ∧
      callsRefresh (mainSteps envOk 10 (powerOn memId)).pc = true ∧
      (mainSteps envOk 10 (powerOn memId)).outstanding = 1 ∧
      (mainSteps envOk 11 (powerOn memId)).outstanding = 2 ∧
      ¬ (∀ (acts : List Action) (mem : Mem) (s : Sys),
          run acts (powerOn mem) = some s → s.outstanding ≤ 1) := by
  refine ⟨run_mainSteps envOk 11 _, by decide, by decide, by decide, by decide, ?_⟩
  intro hall
  have h := hall (List.replicate 11 (Action.main envOk)) memId _ (run_mainSteps envOk 11 _)
  exact absurd h (by decide)

/-- Claim C4, amended. In every execution in which the refresh issued by `LCD_Init` has been
reported complete by the time `main` stores `pending_buffer = 0` at line 103, at most one
refresh is outstanding at any time, and `main` never calls `HAL_DSI_Refresh` (lines 94,
104, 114) while an earlier refresh is unacknowledged. -/
theorem C4_one_refresh_outstanding (acts : List Action) (mem : Mem) (s : Sys)
    (hrun : run acts (powerOn mem) = some s)
    (hack : ackBeforeFlagStore acts (powerOn mem) = true) :
    s.outstanding ≤ 1 ∧ (callsRefresh s.pc = true → s.outstanding = 0) :=
  Handshake_outstanding s (Handshake_run acts (powerOn mem) s (Handshake_powerOn mem) hack hrun)

/-- Witness for C4: the execution `ackedSchedule`, which ends at line 111 with the third
refresh in flight. -/
theorem C4_one_refresh_outstanding_witness :
    run ackedSchedule (powerOn memId) = some (runOr ackedSchedule (powerOn memId)) ∧
      ackBeforeFlagStore ackedSchedule (powerOn memId) = true ∧
      refreshCount (runOr ackedSchedule (powerOn memId)) = 3 ∧
      (runOr ackedSchedule (powerOn memId)).outstanding ≤ 1 ∧
      (callsRefresh (runOr ackedSchedule (powerOn memId)).pc = true →
        (runOr ackedSchedule (powerOn memId)).outstanding = 0) :=
  ⟨rfl, by decide, by decide,
    C4_one_refresh_outstanding ackedSchedule memId (runOr ackedSchedule (powerOn memId)) rfl
      (by decide)⟩

/-! ## Fatal and non-fatal failures -/

/-- Claim C8 as stated fails. With `HAL_DSI_Init` reporting an error, and likewise with
`HAL_DMA2D_Init` reporting an error, fourteen statements of `main` lead to the polling
loop at line 111 after both drawing passes and the refresh of line 104, and LED3 has not
been turned on. -/
theorem C8_init_failure_reaches_loop :
    envDsiInitFails.status Call.HAL_DSI_Init ≠ HAL_StatusTypeDef.HAL_OK ∧
      (mainSteps envDsiInitFails 14 (powerOn memId)).pc = PC.L111 ∧
      Event.call Call.BSP_LED_On_LED3 ∉ (mainSteps envDsiInitFails 14 (powerOn memId)).trace ∧
      refreshCount (mainSteps envDsiInitFails 14 (powerOn memId)) = 2 ∧
      envDma2dInitFails.status Call.HAL_DMA2D_Init ≠ HAL_StatusTypeDef.HAL_OK ∧
      (mainSteps envDma2dInitFails 14 (powerOn memId)).pc = PC.L111 ∧
      Event.call Call.BSP_LED_On_LED3 ∉
        (mainSteps envDma2dInitFails 14 (powerOn memId)).trace ∧
      refreshCount (mainSteps envDma2dInitFails 14 (powerOn memId)) = 2 := by
  refine ⟨by decide, by decide, by decide, by decide, by decide, by decide, by decide,
    by decide⟩

/-- Claim C8, amended. When `OnError_Handler` is entered with a non-zero condition, which
`main` does at line 95 exactly when `lcd_status != LCD_OK`, the program turns on LED3 and
then halts forever: no later statement of `main` makes a call or changes the state. A
failure reported by `HAL_DMA2D_Init` in `CopyBuffer` is not fatal: the call of line 102
(line 106) only records the failed initialisation, leaves memory as it was, does not turn
on LED3 and continues at line 103 (line 107). -/
theorem C8_fatal_and_nonfatal (env : HalEnv) (s : Sys) :
    (∀ condition ret, condition ≠ 0 →
        OnError_Handler condition ret s = { callExt Call.BSP_LED_On_LED3 s with pc := PC.L60 }) ∧
      (s.pc = PC.L95 → s.lcd_status ≠ LCD_OK →
        (mainStep env s).pc = PC.L60 ∧
        (mainStep env s).trace = s.trace ++ [Event.call Call.BSP_LED_On_LED3] ∧
        ∀ env2 n, mainSteps env2 n (mainStep env s) = mainStep env s) ∧
      (s.pc = PC.L95 → s.lcd_status = LCD_OK → mainStep env s = { s with pc := PC.L97 }) ∧
      (s.pc = PC.L102 → env.status Call.HAL_DMA2D_Init ≠ HAL_StatusTypeDef.HAL_OK →
        mainStep env s =
          { s with pc := PC.L103, trace := s.trace ++ [Event.call Call.HAL_DMA2D_Init] }) ∧
      (s.pc = PC.L106 → env.status Call.HAL_DMA2D_Init ≠ HAL_StatusTypeDef.HAL_OK →
        mainStep env s =
          { s with pc := PC.L107, trace := s.trace ++ [Event.call Call.HAL_DMA2D_Init] }) := by
  refine ⟨?_, ?_, ?_, ?_, ?_⟩
  · intro condition ret hc
    unfold OnError_Handler
    rw [if_pos hc]
  · intro hpc hst
    have h1 : mainStep env s = { callExt Call.BSP_LED_On_LED3 s with pc := PC.L60 } := by
      simp only [mainStep, hpc, OnError_Handler]
      rw [if_pos hst, if_pos (by decide)]
    rw [h1]
    exact ⟨rfl, rfl, fun env2 n => mainSteps_halted env2 n _ rfl⟩
  · intro hpc hst
    have hc : (if s.lcd_status ≠ LCD_OK then 1 else 0 : Nat) = 0 := if_neg (fun h => h hst)
    simp only [mainStep, hpc, OnError_Handler]
    rw [hc, if_neg (fun h => h rfl)]
  · intro hpc hf
    simp only [mainStep, hpc, mainCopyBuffer, CopyBuffer, hf, if_false]
  · intro hpc hf
    simp only [mainStep, hpc, mainCopyBuffer, CopyBuffer, hf, if_false]

/-- Witness for C8: a state at line 95 with `lcd_status = 1`, and the first `CopyBuffer`
call with `HAL_DMA2D_Init` reporting an error. -/
theorem C8_fatal_and_nonfatal_witness :
    (mainStep envOk { powerOn memId with pc := PC.L95, lcd_status := 1 }).pc = PC.L60 ∧
      (mainStep envOk { powerOn memId with pc := PC.L95, lcd_status := 1 }).trace =
        [] ++ [Event.call Call.BSP_LED_On_LED3] ∧
      (mainStep envDma2dInitFails { powerOn memId with pc := PC.L102 }).pc = PC.L103 :=
  ⟨((C8_fatal_and_nonfatal envOk { powerOn memId with pc := PC.L95, lcd_status := 1 }).2.1
      rfl (by decide)).1,
    ((C8_fatal_and_nonfatal envOk { powerOn memId with pc := PC.L95, lcd_status := 1 }).2.1
      rfl (by decide)).2.1,
    congrArg Sys.pc
      ((C8_fatal_and_nonfatal envDma2dInitFails { powerOn memId with pc := PC.L102 }).2.2.2.1
        rfl (by decide))⟩

/-! ## Framebuffer writes and the flag -/

/-- Claim C9 as stated fails. Eleven statements of `main` with no interrupt lead to
line 105 with `pending_buffer = 0`: the `LCD_BriefDisplay` call of line 105, and after it
`CopyBuffer` and `DrawButton`, are made while a refresh is Pending. -/
theorem C9_draws_while_pending :
    run (List.replicate 11 (Action.main envOk)) (powerOn memId) =
        some (mainSteps envOk 11 (powerOn memId)) ∧
      (mainSteps envOk 11 (powerOn memId)).pc = PC.L105 ∧
      writesFramebuffer (mainSteps envOk 11 (powerOn memId)).pc = true ∧
      (mainSteps envOk 11 (powerOn memId)).pending_buffer = 0 ∧
      (mainSteps envOk 12 (powerOn memId)).pending_buffer = 0 ∧
      (mainSteps envOk 13 (powerOn memId)).pending_buffer = 0 ∧
      ¬ (∀ (acts : List Action) (mem : Mem) (s : Sys),
          run acts (powerOn mem) = some s → writesFramebuffer s.pc = true →
            s.pending_buffer < 0) := by
  refine ⟨run_mainSteps envOk 11 _, by decide, by decide, by decide, by decide, by decide, ?_⟩
  intro hall
  have h := hall (List.replicate 11 (Action.main envOk)) memId _ (run_mainSteps envOk 11 _)
    (by decide)
  exact absurd h (by decide)

/-- Claim C9, amended. In every execution, the framebuffer-mutating calls that `main` makes
before its first refresh request (`LCD_BriefDisplay` at line 99, `CopyBuffer` at line 102)
are made with `pending_buffer < 0`; those of lines 105-107 are made with `pending_buffer`
equal to `0`, or to `-1` only after the callback has stored `-1`; and the statements of the
polling loop are no framebuffer-mutating calls, leave memory unchanged and stay in the
loop. -/
theorem C9_framebuffer_writes (acts : List Action) (mem : Mem) (s : Sys)
    (hrun : run acts (powerOn mem) = some s) :
    ((s.pc = PC.L99 ∨ s.pc = PC.L102) → s.pending_buffer < 0) ∧
      ((s.pc = PC.L105 ∨ s.pc = PC.L106 ∨ s.pc = PC.L107) →
        s.pending_buffer = 0 ∨
          (s.pending_buffer = -1 ∧ Event.storePending (-1) ∈ s.trace)) ∧
      (inLoop s.pc = true →
        writesFramebuffer s.pc = false ∧
        ∀ env, (mainStep env s).mem = s.mem ∧ inLoop (mainStep env s).pc = true) := by
  have h := FlagHistory_run acts (powerOn mem) s (FlagHistory_powerOn mem) hrun
  obtain ⟨pc, pb, ls, out, m, tr⟩ := s
  refine ⟨?_, ?_, ?_⟩
  · intro hpc
    simp only at hpc
    rcases hpc with hpc | hpc <;> subst hpc <;> simp only [FlagHistory] at h <;>
      simp only [h] <;> decide
  · intro hpc
    simp only at hpc
    rcases hpc with hpc | hpc | hpc <;> subst hpc <;> exact h
  · intro hl
    cases pc <;> simp only [inLoop] at hl <;>
      first
        | exact absurd hl (by decide)
        | (refine ⟨rfl, fun env => ?_⟩
           simp only [mainStep, storePending, HAL_DSI_Refresh]
           first
             | exact ⟨rfl, rfl⟩
             | exact ⟨trivial, rfl⟩
             | (split_ifs <;> exact ⟨rfl, rfl⟩))

/-- Witness for C9: eight statements of `main` lead to the `CopyBuffer` call of line 102,
made with `pending_buffer < 0`. -/
theorem C9_framebuffer_writes_witness :
    run (List.replicate 8 (Action.main envOk)) (powerOn memId) =
        some (mainSteps envOk 8 (powerOn memId)) ∧
      (mainSteps envOk 8 (powerOn memId)).pc = PC.L102 ∧
      (mainSteps envOk 8 (powerOn memId)).pending_buffer < 0 :=
  ⟨run_mainSteps envOk 8 _, by decide,
    (C9_framebuffer_writes (List.replicate 8 (Action.main envOk)) memId
      (mainSteps envOk 8 (powerOn memId)) (run_mainSteps envOk 8 _)).1 (Or.inr (by decide))⟩

end TouchScreenButton
